import Mathlib

/-!
Verification development for the elderly-UI client (Next.js/TypeScript).

Shallow embedding of the session/expiry state machine
(`src/app/contexts/ElderlyAuthContext.tsx`), the login page
(`src/app/pageBackup.tsx`), and the chat pages
(`src/app/chat/page copy.tsx`, which contains two versions of the chat
page: a legacy one using `/chat/elderly` + `/speech_to_text`, and the
current one using the `useProcessText` / `useProcessAudio` hooks).

Conventions of the embedding:
  - timestamps are integer epoch milliseconds (`Date.getTime()`), and the
    fractional divisions of `checkExpiration` are carried out in `ℚ`;
  - JavaScript string truthiness (`""` and `null`/`undefined` are falsy)
    is modelled by `jsTruthy` on `Option String`, and `x || d` on strings
    by `jsOr`;
  - `localStorage` is a record of the four keys the app uses;
  - network calls are modelled by passing the (optional) parsed JSON
    response as an argument: `none` stands for a thrown/failed fetch,
    which the source catches locally.
-/

/-- JavaScript truthiness for an optional string: `null`/`undefined` and
the empty string are falsy. -/
def jsTruthy : Option String → Bool
  | none => false
  | some s => s ≠ ""

/-- JavaScript `x || d` for an optional string `x` and default `d`. -/
def jsOr (x : Option String) (d : String) : String :=
  match x with
  | none => d
  | some s => if s = "" then d else s

/-- Drop leading whitespace characters from a character list. -/
def dropWhitespace : List Char → List Char
  | [] => []
  | c :: cs => if c.isWhitespace then dropWhitespace cs else c :: cs

/-- JavaScript `String.prototype.trim`: strip whitespace from both ends
(structurally recursive model of the runtime built-in). -/
def jsTrim (s : String) : String :=
  String.mk (dropWhitespace ((dropWhitespace s.data.reverse).reverse))

/-- Profile payload stored by the auth context
(interface `ElderlyData` in `ElderlyAuthContext.tsx`). -/
structure ElderlyData where
  elderly_userid : String
  preferred_name : String
  admin_id : String
  caregiver_assigned : String
deriving DecidableEq, Repr

/-- In-memory React state of `ElderlyAuthProvider`: `token`, `elderlyData`,
`lastActivity`, `tokenCreatedAt`, `logoutWarning` (timestamps in ms). -/
structure AuthState where
  token : Option String
  elderlyData : Option ElderlyData
  lastActivity : Option Int
  tokenCreatedAt : Option Int
  logoutWarning : Option String
deriving DecidableEq, Repr

/-- The four `localStorage` keys used by the app: `elderlyToken`,
`elderlyData` (JSON serialisation modelled as the value itself),
`elderlyLastActivity`, `elderlyTokenCreatedAt` (ISO strings modelled as
ms timestamps). -/
structure Storage where
  elderlyToken : Option String
  elderlyData : Option ElderlyData
  elderlyLastActivity : Option Int
  elderlyTokenCreatedAt : Option Int
deriving DecidableEq, Repr

/-- `logout` from `ElderlyAuthContext.tsx` (lines 94-107): clears the five
state variables, removes `elderlyData`, `elderlyLastActivity` and
`elderlyTokenCreatedAt` from `localStorage`, and deliberately keeps
`elderlyToken` there (the removal is commented out in the source). -/
def logout (_s : AuthState) (st : Storage) : AuthState × Storage :=
  ( { token := none, elderlyData := none, lastActivity := none,
      tokenCreatedAt := none, logoutWarning := none },
    { st with elderlyData := none, elderlyLastActivity := none,
              elderlyTokenCreatedAt := none } )

/-- `login` from `ElderlyAuthContext.tsx`: installs token and profile,
stamps both timestamps with `now`, clears the warning and persists
everything. -/
def login (newToken : String) (data : ElderlyData) (now : Int)
    (_st : Storage) : AuthState × Storage :=
  ( { token := some newToken, elderlyData := some data,
      lastActivity := some now, tokenCreatedAt := some now,
      logoutWarning := none },
    { elderlyToken := some newToken, elderlyData := some data,
      elderlyLastActivity := some now, elderlyTokenCreatedAt := some now } )

/-- The lazy `useState` initialisers of `ElderlyAuthProvider`: state is
loaded from `localStorage` on mount; `logoutWarning` starts `null`. -/
def reloadState (st : Storage) : AuthState :=
  { token := st.elderlyToken
    elderlyData := st.elderlyData
    lastActivity := st.elderlyLastActivity
    tokenCreatedAt := st.elderlyTokenCreatedAt
    logoutWarning := none }

/-- `(now.getTime() - lastActivity.getTime()) / (1000 * 60)`. -/
def inactiveMinutes (now lastActivity : Int) : ℚ :=
  ((now - lastActivity : Int) : ℚ) / (1000 * 60)

/-- `(now.getTime() - tokenCreatedAt.getTime()) / (1000 * 60 * 60)`. -/
def tokenAgeHours (now tokenCreatedAt : Int) : ℚ :=
  ((now - tokenCreatedAt : Int) : ℚ) / (1000 * 60 * 60)

/-- `checkExpiration` from `ElderlyAuthContext.tsx` (lines 115-144); the
enclosing effect runs it on a 10 s interval only while `token`,
`lastActivity` and `tokenCreatedAt` are all non-null, with `la`/`tca`
their ms values. Branch order is exactly the source's `if`/`else if`
chain. -/
def checkExpiration (now la tca : Int) (s : AuthState) (st : Storage) :
    AuthState × Storage :=
  if 14 ≤ inactiveMinutes now la ∧ inactiveMinutes now la < 15 then
    ({ s with logoutWarning := some "Logging-out in 1 minute due to inactivity" }, st)
  else if 23 ≤ tokenAgeHours now tca ∧ tokenAgeHours now tca < 24 then
    ({ s with logoutWarning := some "Logging-out in 1 minute" }, st)
  else if 15 ≤ inactiveMinutes now la then
    logout s st
  else if 24 ≤ tokenAgeHours now tca then
    logout s st
  else
    ({ s with logoutWarning := none }, st)

/-- Parsed JSON body of `/refresh_elderly_activity`. -/
structure RefreshResult where
  success : Bool
  new_token : Option String
  message : Option String
deriving DecidableEq, Repr

/-- `refreshActivity` from `ElderlyAuthContext.tsx` (lines 164-203):
returns `false` without a call when no token is loaded; on a fetch/parse
error (`resp = none`, caught by the source's `try`/`catch`) returns
`false` unchanged; installs the new token and resets `lastActivity` and
the warning only when `result.success && result.new_token`. -/
def refreshActivity (s : AuthState) (st : Storage) (now : Int)
    (resp : Option RefreshResult) : Bool × AuthState × Storage :=
  match s.token with
  | none => (false, s, st)
  | some _ =>
    match resp with
    | none => (false, s, st)
    | some r =>
      if r.success = true ∧ jsTruthy r.new_token = true then
        (true,
         { s with token := r.new_token, lastActivity := some now,
                  logoutWarning := none },
         { st with elderlyToken := r.new_token,
                   elderlyLastActivity := some now })
      else
        (false, s, st)

/-- Decoded JWT payload (interface `JWTPayload` in `pageBackup.tsx`).
`exp` and `iat` are NumericDate seconds. -/
structure JWTPayload where
  elderly_userid : Option Int
  admin_id : Option Int
  caregiver_assigned : Option String
  session_id : Option String
  exp : Option Int
  iat : Option Int
  last_activity : Option Int
deriving DecidableEq, Repr

/-- `isTokenExpired` from `pageBackup.tsx` (lines 38-44), over the result
of `decodeJWT` (which delegates to the browser's `atob`/`JSON.parse` and
returns `null` on any decoding error, so its result ranges over
`Option JWTPayload`). JavaScript `!payload.exp` is truthy when `exp` is
absent or `0`. -/
def isTokenExpired (payload : Option JWTPayload) (now : Int) : Bool :=
  match payload with
  | none => true
  | some p =>
    match p.exp with
    | none => true
    | some e => if e = 0 then true else decide (e < now)

/-- Message role (interface `Message` in both chat pages). -/
inductive Role where
  | user
  | assistant
deriving DecidableEq, Repr

/-- Chat message: `{ role, content, timestamp }` (timestamp in ms). -/
structure Message where
  role : Role
  content : String
  timestamp : Int
deriving DecidableEq, Repr

/-- Request body of `/chat/elderly` (legacy chat page):
`{ text, sessionId }`. -/
structure SentBody where
  text : String
  sessionId : Option String
deriving DecidableEq, Repr

/-- Parsed JSON body of `/chat/elderly` (legacy chat page). -/
structure ChatElderlyResult where
  success : Bool
  response : Option String
  sessionId : Option String
  token : Option String
  message : Option String
deriving DecidableEq, Repr

/-- Parsed JSON body of `/speech_to_text` (legacy chat page). -/
structure SpeechToTextResult where
  success : Bool
  text : Option String
deriving DecidableEq, Repr

/-- React state of the legacy chat page (first version in
`src/app/chat/page copy.tsx`). -/
structure LegacyChatState where
  messages : List Message
  sessionId : Option String
  error : String
  audioError : String
  isLoading : Bool
  isProcessingAudio : Bool
deriving DecidableEq, Repr

/-- Shared response handling of the legacy page's `/chat/elderly` calls
(lines 180-208 and 267-295 of `page copy.tsx`): on success append the
assistant message and cache `result.sessionId` when none is cached yet
(`if (!sessionId && result.sessionId)`); otherwise set the error string;
a thrown fetch (`resp = none`) sets the generic error; `finally` clears
`isLoading`. -/
def legacyApplyChatResult (now : Int) (st : LegacyChatState)
    (resp : Option ChatElderlyResult) : LegacyChatState :=
  match resp with
  | none =>
    { st with error := "Failed to send message. Please try again.",
              isLoading := false }
  | some r =>
    if r.success = true ∧ jsTruthy r.response = true then
      { st with
          messages := st.messages ++
            [{ role := Role.assistant, content := jsOr r.response "",
               timestamp := now }],
          sessionId :=
            if jsTruthy st.sessionId = false ∧ jsTruthy r.sessionId = true then
              r.sessionId
            else st.sessionId,
          isLoading := false }
    else
      { st with error := jsOr r.message "Failed to send message",
                isLoading := false }

/-- `handleSendMessage` of the legacy chat page (lines 229-296): guarded
no-op when the input is blank, a send is in flight, token or profile is
missing, or audio is processing; otherwise appends the user message,
sends `{ text, sessionId }` and applies the response. Returns the new
state and the body sent (`none` when the guard rejected). -/
def legacyHandleSendMessage (st : LegacyChatState) (inputText : String)
    (hasToken hasData : Bool) (now : Int)
    (resp : Option ChatElderlyResult) :
    LegacyChatState × Option SentBody :=
  if jsTrim inputText = "" ∨ st.isLoading = true ∨ hasToken = false ∨
      hasData = false ∨ st.isProcessingAudio = true then
    (st, none)
  else
    let userMessage := jsTrim inputText
    let st1 := { st with
      messages := st.messages ++
        [{ role := Role.user, content := userMessage, timestamp := now }],
      isLoading := true, error := "", audioError := "" }
    (legacyApplyChatResult now st1 resp,
     some { text := userMessage, sessionId := st.sessionId })

/-- `sendAudioForTranscription` of the legacy chat page (lines 131-219):
on a successful transcription (`result.success && result.text`) the
transcript is appended as a user message and auto-sent to
`/chat/elderly` with the cached `sessionId`; a rejected or thrown
transcription sets `audioError`; `finally` clears `isProcessingAudio`. -/
def legacySendAudio (st : LegacyChatState) (tr : Option SpeechToTextResult)
    (now : Int) (chatResp : Option ChatElderlyResult) :
    LegacyChatState × Option SentBody :=
  match tr with
  | none =>
    ({ st with audioError := "Failed to process audio",
               isProcessingAudio := false }, none)
  | some t =>
    if t.success = true ∧ jsTruthy t.text = true then
      let transcribedText := jsOr t.text ""
      let st1 := { st with
        messages := st.messages ++
          [{ role := Role.user, content := transcribedText,
             timestamp := now }],
        isLoading := true, audioError := "" }
      let st2 := legacyApplyChatResult now st1 chatResp
      ({ st2 with isProcessingAudio := false },
       some { text := transcribedText, sessionId := st.sessionId })
    else
      ({ st with audioError := "Failed to process audio",
                 isProcessingAudio := false }, none)

/-- Payload of the current page's text chat (interface
`ProcessTextPayload` in `ProcessText.ts`): `sessionId` is optional. -/
structure ProcessTextPayload where
  text : String
  sessionId : Option String
deriving DecidableEq, Repr

/-- Response of `process_text` (interface `ProcessTextResponse`); the
`processing_info : any` field carries no behaviour and is omitted. -/
structure ProcessTextResponse where
  audio : String
  language : String
  response : String
deriving DecidableEq, Repr

/-- Response of `process_audio` (interface `ProcessAudioResponse`); all
fields optional; `processing_info` omitted as above. -/
structure ProcessAudioResponse where
  transcript : Option String
  audio : Option String
  language : Option String
  response : Option String
deriving DecidableEq, Repr

/-- React state of the current chat page (second version in
`src/app/chat/page copy.tsx`). -/
structure CurrentChatState where
  messages : List Message
  sessionId : Option String
  error : String
  audioError : String
  isLoading : Bool
  isProcessingAudio : Bool
deriving DecidableEq, Repr

/-- `handleSend` of the current chat page (lines 800-827): guarded no-op
when the input is blank or the hook is loading; otherwise appends the
user message and calls `createProcessText` with payload
`{ text: userMessage }` — the payload carries no `sessionId` and the
state's `sessionId` is not read or written. `loading` is the hook's
`processTextResponseLoading`. -/
def handleSend (st : CurrentChatState) (inputText : String)
    (loading : Bool) (now : Int) :
    CurrentChatState × Option ProcessTextPayload :=
  if jsTrim inputText = "" ∨ loading = true then (st, none)
  else
    ({ st with
        messages := st.messages ++
          [{ role := Role.user, content := jsTrim inputText,
             timestamp := now }],
        isLoading := true },
     some { text := jsTrim inputText, sessionId := none })

/-- The current page's `useEffect` on `processTextResponse` (lines
829-887): stops the loading indicator and appends the assistant reply
when `response` is truthy. It never touches `sessionId` or `error`. -/
def processTextEffect (resp : ProcessTextResponse) (now : Int)
    (st : CurrentChatState) : CurrentChatState :=
  { st with
      isLoading := false,
      messages :=
        if resp.response ≠ "" then
          st.messages ++
            [{ role := Role.assistant, content := resp.response,
               timestamp := now }]
        else st.messages }

/-- `createProcessText` (`ProcessText.ts`, lines 258-283 of the bundled
context file): a successful call stores the response (here: runs the
response effect); any `ApiError`/exception is caught inside the hook and
only written to `console.error`, leaving the page state untouched. -/
def createProcessTextCall (resp : Option ProcessTextResponse) (now : Int)
    (st : CurrentChatState) : CurrentChatState :=
  match resp with
  | some r => processTextEffect r now st
  | none => st

/-- One full text round of the current chat page: `handleSend` followed
by the hook call and, when a response arrived, its effect. Returns the
new state and the payload sent (`none` when the guard rejected). -/
def currentTextRound (st : CurrentChatState) (inputText : String)
    (loading : Bool) (now : Int) (resp : Option ProcessTextResponse) :
    CurrentChatState × Option ProcessTextPayload :=
  match handleSend st inputText loading now with
  | (st1, none) => (st1, none)
  | (st1, some p) => (createProcessTextCall resp now st1, some p)

/-- The optimistic placeholder pushed by `mediaRecorder.onstop` before the
transcription upload (lines 631-639). -/
def voicePlaceholder : String := "🎤 Voice message..."

/-- The `sessionId` part of the form data built by the current page's
`sendAudioForTranscription` (lines 664-683): appended only when the
cached `sessionId` is truthy. -/
def sendAudioFormSessionId (st : CurrentChatState) : Option String :=
  if jsTruthy st.sessionId = true then st.sessionId else none

/-- The downward `for` loop of the audio-response effect (lines 694-705),
which rewrites the content of the *last* user message equal to
`voicePlaceholder` and leaves everything else alone. Implemented on the
reversed list: replace the first match. -/
def replaceLastPlaceholderAux (content : String) :
    List Message → List Message
  | [] => []
  | m :: rest =>
    if m.role = Role.user ∧ m.content = voicePlaceholder then
      { m with content := content } :: rest
    else
      m :: replaceLastPlaceholderAux content rest

/-- Replacement of the last voice placeholder's content, as done by the
audio-response effect. -/
def replaceLastPlaceholder (msgs : List Message) (content : String) :
    List Message :=
  (replaceLastPlaceholderAux content msgs.reverse).reverse

/-- `processAudioResponse.transcript || "🎤 Voice message"`. -/
def audioTranscriptContent (resp : ProcessAudioResponse) : String :=
  jsOr resp.transcript "🎤 Voice message"

/-- First `setMessages` of the current page's `useEffect` on
`processAudioResponse` (lines 690-717): replace the last placeholder's
content, then push the assistant reply when `response` is truthy. -/
def processAudioEffectFirst (resp : ProcessAudioResponse) (now : Int)
    (msgs : List Message) : List Message :=
  let updated := replaceLastPlaceholder msgs (audioTranscriptContent resp)
  if jsTruthy resp.response = true then
    updated ++
      [{ role := Role.assistant, content := jsOr resp.response "",
         timestamp := now }]
  else updated

/-- The `newMessages` array of the same effect (lines 719-725): it also
receives the assistant reply when `response` is truthy. -/
def processAudioNewMessages (resp : ProcessAudioResponse) (now : Int) :
    List Message :=
  if jsTruthy resp.response = true then
    [{ role := Role.assistant, content := jsOr resp.response "",
       timestamp := now }]
  else []

/-- Net effect of the audio-response `useEffect` on the message list: the
first `setMessages` (replace placeholder, push reply) followed by the
second `setMessages((prev) => [...prev, ...newMessages])` (lines
727-729; appending `[]` models the `newMessages.length` guard). -/
def processAudioEffect (resp : ProcessAudioResponse) (now : Int)
    (msgs : List Message) : List Message :=
  processAudioEffectFirst resp now msgs ++ processAudioNewMessages resp now

/-- The audio-response effect at state level: only `messages` and
`isProcessingAudio` change; `sessionId` in particular is untouched. -/
def processAudioEffectState (resp : ProcessAudioResponse) (now : Int)
    (st : CurrentChatState) : CurrentChatState :=
  { st with messages := processAudioEffect resp now st.messages,
            isProcessingAudio := false }

/-- Recording-related state of the chat page: `mediaRecorderRef` being
set, `isRecording`, `isMicMuted`, and the number of microphone streams
acquired via `getUserMedia` and not yet stopped. -/
structure RecState where
  hasRecorder : Bool
  isRecording : Bool
  isMicMuted : Bool
  activeStreams : Nat
deriving DecidableEq, Repr

/-- `startRecording` (lines 608-654): on a granted `getUserMedia`
(`ok = true`) a new stream is acquired, a recorder installed and
recording begins; on a denied/failed acquisition the `catch` sets the
audio error and mutes the mic without acquiring anything. -/
def startRecording (ok : Bool) (st : RecState) : RecState :=
  if ok then
    { st with activeStreams := st.activeStreams + 1, hasRecorder := true,
              isRecording := true, isMicMuted := false }
  else
    { st with isMicMuted := true }

/-- `stopRecording` (lines 656-662): only acts when a recorder exists and
`isRecording`; the recorder's `onstop` handler then stops every track of
the acquired stream, releasing it. -/
def stopRecording (st : RecState) : RecState :=
  if st.hasRecorder = true ∧ st.isRecording = true then
    { st with isRecording := false, isMicMuted := true,
              activeStreams := st.activeStreams - 1 }
  else st

/-- `handleMicToggle` (lines 790-798): the single entry point of the
record control — stops when recording, starts otherwise. -/
def handleMicToggle (ok : Bool) (st : RecState) : RecState :=
  if st.isRecording then stopRecording st else startRecording ok st

/-- Initial recording state of a freshly mounted chat page. -/
def initialRecState : RecState :=
  { hasRecorder := false, isRecording := false, isMicMuted := true,
    activeStreams := 0 }

/-- A whole interaction history with the record control: fold
`handleMicToggle` over the outcomes of the successive `getUserMedia`
calls. -/
def runToggles (inputs : List Bool) : RecState :=
  inputs.foldl (fun st ok => handleMicToggle ok st) initialRecState

/-- Invariant of the recording states reachable through the toggle: a
recorder exists whenever recording, and exactly one stream is active
while recording, none otherwise. -/
def RecInv (st : RecState) : Prop :=
  (st.isRecording = true → st.hasRecorder = true) ∧
  st.activeStreams = (if st.isRecording then 1 else 0)

instance (st : RecState) : Decidable (RecInv st) := by
  unfold RecInv; infer_instance

/-- Parsed JSON body of `/verify_elderly_face` (`pageBackup.tsx`). -/
structure VerifyFaceResult where
  success : Bool
  token : Option String
  message : Option String
deriving DecidableEq, Repr

/-- The login page's step state: `"start" | "phone" | "face"`. -/
inductive LoginStep where
  | start
  | phone
  | face
deriving DecidableEq, Repr

/-- Elderly details held by the login page (interface `ElderlyDetails`
in `pageBackup.tsx`). -/
structure ElderlyDetails where
  userid : String
  preferred_name : Option String
  admin_id : Option String
  caregiver_assigned : Option String
  phone_number : Option String
deriving DecidableEq, Repr

/-- React state of `ElderlyLoginPage` (`pageBackup.tsx`) plus the
persisted `elderlyToken` key and a flag recording that `login` was
called and navigation to `/chat` issued. -/
structure LoginPageState where
  step : LoginStep
  phoneNumber : String
  elderlyDetails : Option ElderlyDetails
  isCapturing : Bool
  error : String
  faceVerificationFailures : Nat
  storedToken : Option String
  loggedIn : Bool
deriving DecidableEq, Repr

/-- `captureAndVerify` (`pageBackup.tsx`, lines 271-347): early return
when the video/canvas refs or `elderlyDetails` are missing; a thrown
fetch/canvas error (`resp = none`) sets the retry error and increments
the failure counter; `result.success && result.token` resets the counter
and logs in; any other response increments the counter and sets
`result.message || "Face verification failed"`. -/
def captureAndVerify (st : LoginPageState) (resp : Option VerifyFaceResult) :
    LoginPageState :=
  match st.elderlyDetails with
  | none => st
  | some _ =>
    match resp with
    | none =>
      { st with error := "Failed to verify face. Please try again.",
                faceVerificationFailures := st.faceVerificationFailures + 1 }
    | some r =>
      if r.success = true ∧ jsTruthy r.token = true then
        { st with faceVerificationFailures := 0, isCapturing := false,
                  loggedIn := true }
      else
        { st with
            faceVerificationFailures := st.faceVerificationFailures + 1,
            error := jsOr r.message "Face verification failed" }

/-- The two possible actions of the left button on the face step. -/
inductive FaceBackAction where
  | enterNumber
  | back
deriving DecidableEq, Repr

/-- The button selector on the face step (lines 562-574):
`faceVerificationFailures >= 5 ? handleEnterNumber : handleBack`, with
the matching label. -/
def faceBackAction (failures : Nat) : FaceBackAction :=
  if 5 ≤ failures then FaceBackAction.enterNumber else FaceBackAction.back

/-- `handleEnterNumber` (lines 374-393): removes the persisted
`elderlyToken`, stops the camera, resets the failure counter and all
face-step state, and navigates to the phone-entry step. -/
def handleEnterNumber (st : LoginPageState) : LoginPageState :=
  { st with storedToken := none, isCapturing := false,
            faceVerificationFailures := 0, step := LoginStep.phone,
            elderlyDetails := none, phoneNumber := "", error := "" }

/-! Concrete fixtures used by counterexamples and witnesses. -/

/-- A loaded session whose last activity is 81 900 000 ms and whose token
was created at epoch 0. -/
def authS0 : AuthState :=
  { token := some "tok", elderlyData := none,
    lastActivity := some 81900000, tokenCreatedAt := some 0,
    logoutWarning := none }

/-- Persisted counterpart of `authS0`. -/
def stor0 : Storage :=
  { elderlyToken := some "tok", elderlyData := none,
    elderlyLastActivity := some 81900000, elderlyTokenCreatedAt := some 0 }

/-- Claim C1: for every periodic expiry check and every token age, an
inactivity duration in [14 min, 15 min) sets the logout warning, and an
inactivity duration ≥ 15 min clears the session — amended: the forced
logout additionally requires the token age to lie outside the [23 h,
24 h) warning window, because that `else if` branch is evaluated before
the inactivity logout branch. -/
theorem c1_inactivity_expiry (now la tca : Int) (s : AuthState) (st : Storage) :
    (14 ≤ inactiveMinutes now la ∧ inactiveMinutes now la < 15 →
      (checkExpiration now la tca s st).1.logoutWarning =
        some "Logging-out in 1 minute due to inactivity") ∧
    (15 ≤ inactiveMinutes now la ∧
        ¬ (23 ≤ tokenAgeHours now tca ∧ tokenAgeHours now tca < 24) →
      checkExpiration now la tca s st = logout s st) := by
  constructor
  · intro h
    rw [checkExpiration, if_pos h]
  · rintro ⟨h1, h2⟩
    have hn : ¬ (14 ≤ inactiveMinutes now la ∧ inactiveMinutes now la < 15) := by
      rintro ⟨-, hlt⟩
      linarith
    rw [checkExpiration, if_neg hn, if_neg h2, if_pos h1]

/-- Claim C1, counterexample to the unamended statement: with exactly
15 min of inactivity (now = 82 800 000, lastActivity = 81 900 000) and a
token that is exactly 23 h old, the check sets the token-age warning and
leaves the session in place instead of clearing it. -/
theorem c1_counterexample :
    15 ≤ inactiveMinutes 82800000 81900000 ∧
    (checkExpiration 82800000 81900000 0 authS0 stor0).1.token = some "tok" ∧
    (checkExpiration 82800000 81900000 0 authS0 stor0).1.logoutWarning =
      some "Logging-out in 1 minute" := by
  have hm : inactiveMinutes 82800000 81900000 = 15 := by
    norm_num [inactiveMinutes]
  have ha : tokenAgeHours 82800000 0 = 23 := by
    norm_num [tokenAgeHours]
  have hcheck : checkExpiration 82800000 81900000 0 authS0 stor0 =
      ({ authS0 with logoutWarning := some "Logging-out in 1 minute" }, stor0) := by
    rw [checkExpiration, if_neg, if_pos]
    · rw [ha]; norm_num
    · rw [hm]; norm_num
  refine ⟨by rw [hm], ?_, ?_⟩
  · rw [hcheck]
    simp [authS0]
  · rw [hcheck]

/-- Claim C1, witness: at 14.5 min of inactivity the warning is set, and
at 16 min of inactivity (token age 4/15 h) the session is cleared. -/
theorem c1_witness :
    (checkExpiration 870000 0 0 authS0 stor0).1.logoutWarning =
      some "Logging-out in 1 minute due to inactivity" ∧
    checkExpiration 960000 0 0 authS0 stor0 = logout authS0 stor0 := by
  constructor
  · exact (c1_inactivity_expiry 870000 0 0 authS0 stor0).1
      (by norm_num [inactiveMinutes])
  · exact (c1_inactivity_expiry 960000 0 0 authS0 stor0).2
      ⟨by norm_num [inactiveMinutes], by norm_num [tokenAgeHours]⟩

/-- Claim C2: for every periodic expiry check and every inactivity
duration, a token age in [23 h, 24 h) sets a logout warning, and a token
age ≥ 24 h clears the session — amended: the forced logout additionally
requires the inactivity duration to lie outside the [14 min, 15 min)
warning window, whose branch is evaluated first. -/
theorem c2_token_age_expiry (now la tca : Int) (s : AuthState) (st : Storage) :
    (23 ≤ tokenAgeHours now tca ∧ tokenAgeHours now tca < 24 →
      (checkExpiration now la tca s st).1.logoutWarning ≠ none) ∧
    (24 ≤ tokenAgeHours now tca ∧
        ¬ (14 ≤ inactiveMinutes now la ∧ inactiveMinutes now la < 15) →
      checkExpiration now la tca s st = logout s st) := by
  constructor
  · intro h
    by_cases hc1 : 14 ≤ inactiveMinutes now la ∧ inactiveMinutes now la < 15
    · rw [checkExpiration, if_pos hc1]
      simp
    · rw [checkExpiration, if_neg hc1, if_pos h]
      simp
  · rintro ⟨h1, h2⟩
    have hc2 : ¬ (23 ≤ tokenAgeHours now tca ∧ tokenAgeHours now tca < 24) := by
      rintro ⟨-, hlt⟩
      linarith
    rw [checkExpiration, if_neg h2, if_neg hc2]
    by_cases h3 : 15 ≤ inactiveMinutes now la
    · rw [if_pos h3]
    · rw [if_neg h3, if_pos h1]

/-- Claim C2, counterexample to the unamended statement: with a token
exactly 24 h old and 14.5 min of inactivity, the check sets the
inactivity warning and leaves the session in place instead of clearing
it. -/
theorem c2_counterexample :
    24 ≤ tokenAgeHours 86400000 0 ∧
    (checkExpiration 86400000 85530000 0 authS0 stor0).1.token = some "tok" ∧
    (checkExpiration 86400000 85530000 0 authS0 stor0).1.logoutWarning =
      some "Logging-out in 1 minute due to inactivity" := by
  have ha : tokenAgeHours 86400000 0 = 24 := by
    norm_num [tokenAgeHours]
  have hm : inactiveMinutes 86400000 85530000 = 29 / 2 := by
    norm_num [inactiveMinutes]
  have hcheck : checkExpiration 86400000 85530000 0 authS0 stor0 =
      ({ authS0 with
          logoutWarning := some "Logging-out in 1 minute due to inactivity" },
        stor0) := by
    rw [checkExpiration, if_pos]
    rw [hm]; norm_num
  refine ⟨by rw [ha], ?_, ?_⟩
  · rw [hcheck]
    simp [authS0]
  · rw [hcheck]

/-- Claim C2, witness: at a token age of 23.5 h a warning is present, and
at a token age of 24 h with zero inactivity the session is cleared. -/
theorem c2_witness :
    (checkExpiration 84600000 84600000 0 authS0 stor0).1.logoutWarning ≠ none ∧
    checkExpiration 86400000 86400000 0 authS0 stor0 = logout authS0 stor0 := by
  constructor
  · exact (c2_token_age_expiry 84600000 84600000 0 authS0 stor0).1
      (by norm_num [tokenAgeHours])
  · exact (c2_token_age_expiry 86400000 86400000 0 authS0 stor0).2
      ⟨by norm_num [tokenAgeHours], by norm_num [inactiveMinutes]⟩

/-- Claim C4: `logout()` clears the in-memory session fields and the
persisted profile, last-activity and token-created entries, keeps the
persisted raw token, so after a reload the previous token is still
loaded and — being expired — is detected as such by `isTokenExpired`. -/
theorem c4_logout_keeps_token (s : AuthState) (st : Storage) :
    (logout s st).1.token = none ∧
    (logout s st).1.elderlyData = none ∧
    (logout s st).1.lastActivity = none ∧
    (logout s st).1.tokenCreatedAt = none ∧
    (logout s st).1.logoutWarning = none ∧
    (logout s st).2.elderlyToken = st.elderlyToken ∧
    (logout s st).2.elderlyData = none ∧
    (logout s st).2.elderlyLastActivity = none ∧
    (logout s st).2.elderlyTokenCreatedAt = none ∧
    (reloadState (logout s st).2).token = st.elderlyToken ∧
    (∀ now : Int, isTokenExpired none now = true) ∧
    (∀ (p : JWTPayload) (e now : Int), p.exp = some e → e < now →
      isTokenExpired (some p) now = true) := by
  refine ⟨rfl, rfl, rfl, rfl, rfl, rfl, rfl, rfl, rfl, rfl, fun _ => rfl, ?_⟩
  intro p e now he hlt
  rcases eq_or_ne e 0 with h0 | h0
  · simp [isTokenExpired, he, h0]
  · simp [isTokenExpired, he, h0, hlt]

/-- A decoded payload whose `exp` is 5 (seconds). -/
def payloadExp5 : JWTPayload :=
  { elderly_userid := none, admin_id := none, caregiver_assigned := none,
    session_id := none, exp := some 5, iat := none, last_activity := none }

/-- Claim C4, witness: concrete logout keeps the stored token, and a
token whose `exp` (5) is before the current time (10) is detected as
expired. -/
theorem c4_witness :
    (logout authS0 stor0).2.elderlyToken = some "tok" ∧
    isTokenExpired (some payloadExp5) 10 = true := by
  constructor
  · exact ((c4_logout_keeps_token authS0 stor0).2.2.2.2.2.1).trans rfl
  · exact (c4_logout_keeps_token authS0 stor0).2.2.2.2.2.2.2.2.2.2.2
      payloadExp5 5 10 rfl (by norm_num)

/-- Claim C10: `isTokenExpired` returns `true` whenever the token fails
to decode (`decodeJWT` returned `null`) or the decoded payload lacks an
`exp`; it returns `false` only when a decoded `exp` exists and is not
earlier than the current time. (`decodeJWT` delegates to browser
built-ins, so the theorem quantifies over every possible decode
result.) -/
theorem c10_isTokenExpired_fail_safe (payload : Option JWTPayload) (now : Int) :
    (payload = none → isTokenExpired payload now = true) ∧
    (∀ p, payload = some p → p.exp = none → isTokenExpired payload now = true) ∧
    (isTokenExpired payload now = false →
      ∃ p e, payload = some p ∧ p.exp = some e ∧ now ≤ e) := by
  refine ⟨?_, ?_, ?_⟩
  · rintro rfl
    rfl
  · rintro p rfl he
    simp [isTokenExpired, he]
  · intro hfalse
    match payload with
    | none => simp [isTokenExpired] at hfalse
    | some p =>
      match hexp : p.exp with
      | none => simp [isTokenExpired, hexp] at hfalse
      | some e =>
        refine ⟨p, e, rfl, hexp, ?_⟩
        rcases eq_or_ne e 0 with h0 | h0
        · simp [isTokenExpired, hexp, h0] at hfalse
        · simp [isTokenExpired, hexp, h0] at hfalse
          omega

/-- A decoded payload whose `exp` is 3 (seconds). -/
def payloadExp3 : JWTPayload :=
  { elderly_userid := none, admin_id := none, caregiver_assigned := none,
    session_id := none, exp := some 3, iat := none, last_activity := none }

/-- Claim C10, witness: an undecodable token is expired, and a token
reported non-expired at time 2 indeed carries an `exp` ≥ 2. -/
theorem c10_witness :
    isTokenExpired none 0 = true ∧
    (∃ p e, (some payloadExp3 : Option JWTPayload) = some p ∧
      p.exp = some e ∧ (2 : Int) ≤ e) := by
  constructor
  · exact (c10_isTokenExpired_fail_safe none 0).1 rfl
  · exact (c10_isTokenExpired_fail_safe (some payloadExp3) 2).2.2 rfl

/-- Claim C8: `refreshActivity()` returns `true` exactly when a token is
loaded and the backend response has `success` and a (truthy) `new_token`;
on `true` it installs the new token, resets `lastActivity`, clears the
warning and persists token + activity, leaving profile and
token-creation data alone; on `false` (network error, unsuccessful
response, or no token) all state and storage are unchanged. The
embedding is total, mirroring the source's `try`/`catch`: no exception
escapes. -/
theorem c8_refreshActivity (s : AuthState) (st : Storage) (now : Int)
    (resp : Option RefreshResult) :
    ((refreshActivity s st now resp).1 = true ↔
      (s.token ≠ none ∧ ∃ r, resp = some r ∧ r.success = true ∧
        jsTruthy r.new_token = true)) ∧
    ((refreshActivity s st now resp).1 = false →
      (refreshActivity s st now resp).2.1 = s ∧
      (refreshActivity s st now resp).2.2 = st) ∧
    (∀ r, resp = some r → r.success = true → jsTruthy r.new_token = true →
      s.token ≠ none →
      (refreshActivity s st now resp).2.1.token = r.new_token ∧
      (refreshActivity s st now resp).2.1.lastActivity = some now ∧
      (refreshActivity s st now resp).2.1.logoutWarning = none ∧
      (refreshActivity s st now resp).2.1.tokenCreatedAt = s.tokenCreatedAt ∧
      (refreshActivity s st now resp).2.1.elderlyData = s.elderlyData ∧
      (refreshActivity s st now resp).2.2.elderlyToken = r.new_token ∧
      (refreshActivity s st now resp).2.2.elderlyLastActivity = some now ∧
      (refreshActivity s st now resp).2.2.elderlyData = st.elderlyData ∧
      (refreshActivity s st now resp).2.2.elderlyTokenCreatedAt =
        st.elderlyTokenCreatedAt) := by
  cases htok : s.token with
  | none =>
    have he : refreshActivity s st now resp = (false, s, st) := by
      simp [refreshActivity, htok]
    refine ⟨?_, ?_, ?_⟩
    · rw [he]
      simp [htok]
    · intro _
      refine ⟨?_, ?_⟩ <;> rw [he]
    · intro r _ _ _ hne
      exact absurd rfl hne
  | some tok =>
    cases hresp : resp with
    | none =>
      have he : refreshActivity s st now none = (false, s, st) := by
        simp [refreshActivity, htok]
      refine ⟨?_, ?_, ?_⟩
      · rw [he]
        simp
      · intro _
        refine ⟨?_, ?_⟩ <;> rw [he]
      · intro r hr
        exact absurd hr (by simp)
    | some r =>
      by_cases hc : r.success = true ∧ jsTruthy r.new_token = true
      · have he : refreshActivity s st now (some r) =
            (true,
             { s with token := r.new_token, lastActivity := some now,
                      logoutWarning := none },
             { st with elderlyToken := r.new_token,
                       elderlyLastActivity := some now }) := by
          simp only [refreshActivity, htok]
          rw [if_pos hc]
        refine ⟨?_, ?_, ?_⟩
        · rw [he]
          exact ⟨fun _ => ⟨by simp [htok], r, rfl, hc.1, hc.2⟩, fun _ => rfl⟩
        · intro hf
          rw [he] at hf
          simp at hf
        · intro r' hr' _ _ _
          cases hr'
          rw [he]
          simp
      · have he : refreshActivity s st now (some r) = (false, s, st) := by
          simp only [refreshActivity, htok]
          rw [if_neg hc]
        refine ⟨?_, ?_, ?_⟩
        · rw [he]
          constructor
          · intro h
            simp at h
          · rintro ⟨-, r', hr', hs, hn⟩
            cases hr'
            exact absurd ⟨hs, hn⟩ hc
        · intro _
          refine ⟨?_, ?_⟩ <;> rw [he]
        · intro r' hr' hs hn _
          cases hr'
          exact absurd ⟨hs, hn⟩ hc

/-- A successful refresh response carrying a new token. -/
def refreshOk : RefreshResult :=
  { success := true, new_token := some "newTok", message := none }

/-- Claim C8, witness: a successful response returns `true`, and a
network error (`none`) leaves the state untouched. -/
theorem c8_witness :
    (refreshActivity authS0 stor0 42 (some refreshOk)).1 = true ∧
    (refreshActivity authS0 stor0 42 none).2.1 = authS0 ∧
    (refreshActivity authS0 stor0 42 none).2.2 = stor0 := by
  refine ⟨?_, ?_, ?_⟩
  · exact (c8_refreshActivity authS0 stor0 42 (some refreshOk)).1.mpr
      ⟨by simp [authS0], refreshOk, rfl, rfl, by decide⟩
  · exact ((c8_refreshActivity authS0 stor0 42 none).2.1 rfl).1
  · exact ((c8_refreshActivity authS0 stor0 42 none).2.1 rfl).2

/-- Auxiliary: `RecInv` is preserved by every press of the record
control. -/
theorem recInv_preserved (ok : Bool) (st : RecState) (h : RecInv st) :
    RecInv (handleMicToggle ok st) := by
  obtain ⟨hrec, hstream⟩ := h
  by_cases hr : st.isRecording = true
  · rw [handleMicToggle, if_pos hr, stopRecording, if_pos ⟨hrec hr, hr⟩]
    refine ⟨fun h => absurd h (by simp), ?_⟩
    simp only [hr, if_true] at hstream
    simp [hstream]
  · rw [handleMicToggle, if_neg hr]
    have hr' : st.isRecording = false := by
      simpa using hr
    simp only [hr', if_false] at hstream
    cases ok with
    | true => exact ⟨fun _ => rfl, by simp [startRecording, hstream]⟩
    | false =>
      refine ⟨fun h => absurd h (by simp [startRecording, hr']), ?_⟩
      simp [startRecording, hstream, hr']

/-- Auxiliary: `RecInv` holds along every toggle history. -/
theorem recInv_foldl (inputs : List Bool) :
    ∀ st : RecState, RecInv st →
      RecInv (inputs.foldl (fun st ok => handleMicToggle ok st) st) := by
  induction inputs with
  | nil => exact fun st h => h
  | cons ok rest ih =>
    intro st h
    exact ih (handleMicToggle ok st) (recInv_preserved ok st h)

/-- Claim C7: at most one audio capture is ever active — from any
invariant-respecting state where a recording is active, the record
control stops it (releasing its stream) rather than starting a new one,
the invariant is preserved by every press, and along any press history
at most one stream is active at a time. -/
theorem c7_single_capture :
    (∀ (ok : Bool) (st : RecState), st.isRecording = true →
      handleMicToggle ok st = stopRecording st) ∧
    (∀ (ok : Bool) (st : RecState), RecInv st → st.isRecording = true →
      (handleMicToggle ok st).isRecording = false ∧
      (handleMicToggle ok st).activeStreams = 0) ∧
    (∀ (ok : Bool) (st : RecState), RecInv st →
      RecInv (handleMicToggle ok st)) ∧
    (∀ inputs : List Bool, (runToggles inputs).activeStreams ≤ 1) := by
  refine ⟨?_, ?_, recInv_preserved, ?_⟩
  · intro ok st hr
    rw [handleMicToggle, if_pos hr]
  · intro ok st h hr
    obtain ⟨hrec, hstream⟩ := h
    simp only [hr, if_true] at hstream
    refine ⟨?_, ?_⟩ <;>
      rw [handleMicToggle, if_pos hr, stopRecording, if_pos ⟨hrec hr, hr⟩]
    simp [hstream]
  · intro inputs
    have h := recInv_foldl inputs initialRecState (by decide)
    rw [runToggles]
    rcases h with ⟨-, hstream⟩
    rw [hstream]
    by_cases hr : (inputs.foldl (fun st ok => handleMicToggle ok st)
        initialRecState).isRecording = true
    · simp [hr]
    · simp only [hr]
      simp

/-- A state in which a recording is active. -/
def recS1 : RecState :=
  { hasRecorder := true, isRecording := true, isMicMuted := false,
    activeStreams := 1 }

/-- Claim C7, witness: pressing the control while `recS1` records stops
the recording, and two successful presses in a row leave at most one
active stream. -/
theorem c7_witness :
    handleMicToggle true recS1 = stopRecording recS1 ∧
    (handleMicToggle true recS1).activeStreams = 0 ∧
    (runToggles [true, true]).activeStreams ≤ 1 :=
  ⟨c7_single_capture.1 true recS1 rfl,
   (c7_single_capture.2.1 true recS1 (by decide) rfl).2,
   c7_single_capture.2.2.2 [true, true]⟩

/-- Claim C9: every face-verification failure — rejected verification or
network error — increments the failure counter, and once the counter
reaches 5 the face step's left button becomes the `Enter Number`
recovery action (which discards the stored token and returns to phone
entry) instead of the normal `Back` action. -/
theorem c9_face_failures (st : LoginPageState) (resp : Option VerifyFaceResult) :
    (st.elderlyDetails ≠ none →
      (resp = none ∨ ∃ r, resp = some r ∧
        ¬ (r.success = true ∧ jsTruthy r.token = true)) →
      (captureAndVerify st resp).faceVerificationFailures =
        st.faceVerificationFailures + 1) ∧
    (∀ n : Nat, 5 ≤ n → faceBackAction n = FaceBackAction.enterNumber) ∧
    (∀ n : Nat, n < 5 → faceBackAction n = FaceBackAction.back) ∧
    (handleEnterNumber st).storedToken = none ∧
    (handleEnterNumber st).step = LoginStep.phone ∧
    (handleEnterNumber st).faceVerificationFailures = 0 := by
  refine ⟨?_, ?_, ?_, rfl, rfl, rfl⟩
  · intro hd hfail
    cases hdet : st.elderlyDetails with
    | none => exact absurd hdet hd
    | some d =>
      rcases hfail with rfl | ⟨r, rfl, hr⟩
      · simp [captureAndVerify, hdet]
      · simp only [captureAndVerify, hdet]
        rw [if_neg hr]
  · intro n h
    rw [faceBackAction, if_pos h]
  · intro n h
    rw [faceBackAction, if_neg (by omega)]

/-- A face step reached from a decoded token, with 4 failures so far. -/
def loginFaceSt : LoginPageState :=
  { step := LoginStep.face, phoneNumber := "",
    elderlyDetails := some
      { userid := "7", preferred_name := some "Ann", admin_id := none,
        caregiver_assigned := none, phone_number := none },
    isCapturing := true, error := "", faceVerificationFailures := 4,
    storedToken := some "tok", loggedIn := false }

/-- Claim C9, witness: a network error during the fifth attempt takes the
counter to 5, at which the button offers `Enter Number`, and taking it
discards the stored token and returns to phone entry. -/
theorem c9_witness :
    (captureAndVerify loginFaceSt none).faceVerificationFailures = 5 ∧
    faceBackAction 5 = FaceBackAction.enterNumber ∧
    (handleEnterNumber loginFaceSt).storedToken = none := by
  refine ⟨?_, ?_, ?_⟩
  · have h := (c9_face_failures loginFaceSt none).1 (by decide) (Or.inl rfl)
    simpa [loginFaceSt] using h
  · exact (c9_face_failures loginFaceSt none).2.1 5 (by norm_num)
  · exact (c9_face_failures loginFaceSt none).2.2.2.1

/-- Auxiliary: once a truthy `sessionId` is cached, no `/chat/elderly`
response changes it. -/
theorem legacyApplyChatResult_sessionId_stable (st : LegacyChatState)
    (h : jsTruthy st.sessionId = true) (now : Int)
    (resp : Option ChatElderlyResult) :
    (legacyApplyChatResult now st resp).sessionId = st.sessionId := by
  cases resp with
  | none => rfl
  | some r =>
    by_cases hc : r.success = true ∧ jsTruthy r.response = true
    · simp only [legacyApplyChatResult]
      rw [if_pos hc]
      simp [h]
    · simp only [legacyApplyChatResult]
      rw [if_neg hc]

/-- Auxiliary: the first successful `/chat/elderly` response caches its
`sessionId` when none is cached yet. -/
theorem legacyApplyChatResult_sessionId_cache (st : LegacyChatState)
    (h0 : st.sessionId = none) (now : Int) (r : ChatElderlyResult)
    (hs : r.success = true) (hr : jsTruthy r.response = true)
    (hsid : jsTruthy r.sessionId = true) :
    (legacyApplyChatResult now st (some r)).sessionId = r.sessionId := by
  simp only [legacyApplyChatResult]
  rw [if_pos ⟨hs, hr⟩]
  show (if jsTruthy st.sessionId = false ∧ jsTruthy r.sessionId = true then
      r.sessionId else st.sessionId) = r.sessionId
  rw [if_pos ⟨by rw [h0]; rfl, hsid⟩]

/-- Claim C3: the sessionId returned by the first chat call is cached and
sent unchanged in every subsequent chat call — amended: this holds for
the legacy chat page (text and audio paths), while in the current chat
page the text payload never carries a sessionId, no response ever
updates the cached one (the hook response types do not even expose a
sessionId), and the audio upload merely forwards the never-set cache. -/
theorem c3_sessionId_amended (st : LegacyChatState) :
    (∀ (now : Int) (r : ChatElderlyResult),
      st.sessionId = none → r.success = true → jsTruthy r.response = true →
      jsTruthy r.sessionId = true →
      (legacyApplyChatResult now st (some r)).sessionId = r.sessionId) ∧
    (jsTruthy st.sessionId = true →
      ∀ (now : Int) (resp : Option ChatElderlyResult),
        (legacyApplyChatResult now st resp).sessionId = st.sessionId) ∧
    (∀ input hTok hData now resp b,
      (legacyHandleSendMessage st input hTok hData now resp).2 = some b →
      b.sessionId = st.sessionId) ∧
    (∀ tr now chatResp b,
      (legacySendAudio st tr now chatResp).2 = some b →
      b.sessionId = st.sessionId) ∧
    (jsTruthy st.sessionId = true →
      ∀ input hTok hData now resp,
        (legacyHandleSendMessage st input hTok hData now resp).1.sessionId =
          st.sessionId) ∧
    (jsTruthy st.sessionId = true →
      ∀ tr now chatResp,
        (legacySendAudio st tr now chatResp).1.sessionId = st.sessionId) ∧
    (∀ (cst : CurrentChatState) input loading now resp p,
      (currentTextRound cst input loading now resp).2 = some p →
      p.sessionId = none) ∧
    (∀ (cst : CurrentChatState) input loading now resp,
      (currentTextRound cst input loading now resp).1.sessionId =
        cst.sessionId) ∧
    (∀ (cst : CurrentChatState) (resp : ProcessAudioResponse) (now : Int),
      (processAudioEffectState resp now cst).sessionId = cst.sessionId) := by
  refine ⟨?_, ?_, ?_, ?_, ?_, ?_, ?_, ?_, fun _ _ _ => rfl⟩
  · intro now r h0 hs hr hsid
    exact legacyApplyChatResult_sessionId_cache st h0 now r hs hr hsid
  · intro h now resp
    exact legacyApplyChatResult_sessionId_stable st h now resp
  · intro input hTok hData now resp b hb
    by_cases hg : jsTrim input = "" ∨ st.isLoading = true ∨ hTok = false ∨
        hData = false ∨ st.isProcessingAudio = true
    · rw [legacyHandleSendMessage, if_pos hg] at hb
      cases hb
    · rw [legacyHandleSendMessage, if_neg hg] at hb
      simp only [Option.some.injEq] at hb
      rw [← hb]
  · intro tr now chatResp b hb
    cases tr with
    | none => cases hb
    | some t =>
      by_cases hc : t.success = true ∧ jsTruthy t.text = true
      · rw [legacySendAudio, if_pos hc] at hb
        simp only [Option.some.injEq] at hb
        rw [← hb]
      · rw [legacySendAudio, if_neg hc] at hb
        cases hb
  · intro h input hTok hData now resp
    by_cases hg : jsTrim input = "" ∨ st.isLoading = true ∨ hTok = false ∨
        hData = false ∨ st.isProcessingAudio = true
    · rw [legacyHandleSendMessage, if_pos hg]
    · rw [legacyHandleSendMessage, if_neg hg]
      exact legacyApplyChatResult_sessionId_stable
        { st with
            messages := st.messages ++
              [{ role := Role.user, content := jsTrim input, timestamp := now }],
            isLoading := true, error := "", audioError := "" }
        h now resp
  · intro h tr now chatResp
    cases tr with
    | none => rfl
    | some t =>
      by_cases hc : t.success = true ∧ jsTruthy t.text = true
      · rw [legacySendAudio, if_pos hc]
        exact legacyApplyChatResult_sessionId_stable
          { st with
              messages := st.messages ++
                [{ role := Role.user, content := jsOr t.text "",
                   timestamp := now }],
              isLoading := true, audioError := "" }
          h now chatResp
      · rw [legacySendAudio, if_neg hc]
  · intro cst input loading now resp p hp
    by_cases hg : jsTrim input = "" ∨ loading = true
    · rw [currentTextRound, handleSend, if_pos hg] at hp
      cases hp
    · rw [currentTextRound, handleSend, if_neg hg] at hp
      simp only [Option.some.injEq] at hp
      rw [← hp]
  · intro cst input loading now resp
    by_cases hg : jsTrim input = "" ∨ loading = true
    · rw [currentTextRound, handleSend, if_pos hg]
    · rw [currentTextRound, handleSend, if_neg hg]
      cases resp with
      | none => rfl
      | some r => rfl

/-- A current-page chat state that somehow holds a cached sessionId. -/
def curStWithSession : CurrentChatState :=
  { messages := [], sessionId := some "s1", error := "", audioError := "",
    isLoading := false, isProcessingAudio := false }

/-- Claim C3, counterexample to the unamended statement: on the current
chat page, even with a cached sessionId `"s1"` present, a subsequent
text chat call sends `sessionId = none` — the cached value is not sent
at all, let alone unchanged. -/
theorem c3_counterexample :
    (currentTextRound curStWithSession "again" false 0 none).2 =
      some { text := "again", sessionId := none } ∧
    (currentTextRound curStWithSession "again" false 0 none).2 ≠
      some { text := "again", sessionId := some "s1" } := by
  constructor
  · rfl
  · decide

/-- An empty legacy chat state (fresh conversation). -/
def legacyInit : LegacyChatState :=
  { messages := [], sessionId := none, error := "", audioError := "",
    isLoading := false, isProcessingAudio := false }

/-- The legacy state after the first call cached sessionId `"s1"`. -/
def legacyCached : LegacyChatState :=
  { legacyInit with sessionId := some "s1" }

/-- First successful chat response, returning sessionId `"s1"`. -/
def chatRes1 : ChatElderlyResult :=
  { success := true, response := some "hi!", sessionId := some "s1",
    token := none, message := none }

/-- A later successful chat response that reports a different
sessionId. -/
def chatRes2 : ChatElderlyResult :=
  { success := true, response := some "again!", sessionId := some "s2",
    token := none, message := none }

/-- Claim C3, witness: on the legacy page the first response's sessionId
`"s1"` is cached, a later response carrying `"s2"` does not displace it,
and the body of a later send still carries `"s1"`. -/
theorem c3_witness :
    (legacyApplyChatResult 0 legacyInit (some chatRes1)).sessionId = some "s1" ∧
    (legacyApplyChatResult 1 legacyCached (some chatRes2)).sessionId = some "s1" ∧
    ∀ b, (legacyHandleSendMessage legacyCached "more" true true 2
      (some chatRes2)).2 = some b → b.sessionId = some "s1" := by
  refine ⟨?_, ?_, ?_⟩
  · exact ((c3_sessionId_amended legacyInit).1 0 chatRes1 rfl rfl
      (by decide) (by decide)).trans rfl
  · exact ((c3_sessionId_amended legacyCached).2.1 (by decide) 1
      (some chatRes2)).trans rfl
  · intro b hb
    exact ((c3_sessionId_amended legacyCached).2.2.1 "more" true true 2
      (some chatRes2) b hb).trans rfl

/-- Pointwise relation between an original message and its image under
the placeholder rewrite: either untouched, or a user voice placeholder
whose content (only) was replaced. -/
def placeholderRel (c : String) (a b : Message) : Prop :=
  b = a ∨ (a.role = Role.user ∧ a.content = voicePlaceholder ∧
    b = { a with content := c })

/-- Auxiliary: the reversed-list placeholder rewrite relates the lists
pointwise by `placeholderRel`. -/
theorem replaceAux_forall₂ (c : String) (l : List Message) :
    List.Forall₂ (placeholderRel c) l (replaceLastPlaceholderAux c l) := by
  induction l with
  | nil => exact List.Forall₂.nil
  | cons m rest ih =>
    by_cases h : m.role = Role.user ∧ m.content = voicePlaceholder
    · simp only [replaceLastPlaceholderAux]
      rw [if_pos h]
      exact List.Forall₂.cons (Or.inr ⟨h.1, h.2, rfl⟩)
        (List.forall₂_same.mpr fun x _ => Or.inl rfl)
    · simp only [replaceLastPlaceholderAux]
      rw [if_neg h]
      exact List.Forall₂.cons (Or.inl rfl) ih

/-- Auxiliary: the placeholder rewrite relates original and rewritten
message list pointwise by `placeholderRel` — in particular it preserves
length, order, every role and every timestamp, and only rewrites
contents equal to the voice placeholder. -/
theorem replaceLastPlaceholder_forall₂ (msgs : List Message) (c : String) :
    List.Forall₂ (placeholderRel c) msgs (replaceLastPlaceholder msgs c) := by
  have h := List.rel_reverse (replaceAux_forall₂ c msgs.reverse)
  rw [List.reverse_reverse] at h
  exact h

/-- Claim C6: the message list is append-only and previously appended
messages are never modified or removed — amended: all operations except
the audio-response effect strictly append; that effect appends the
assistant reply (twice) at the end, but first rewrites the content of
the latest `🎤 Voice message...` user placeholder to the transcript,
preserving every message's role, timestamp and position and every
non-placeholder content. -/
theorem c6_append_only_amended (resp : ProcessAudioResponse) (now : Int)
    (msgs : List Message) (r : ProcessTextResponse)
    (cst : CurrentChatState) (input : String) (loading : Bool) :
    processAudioEffect resp now msgs =
      replaceLastPlaceholder msgs (audioTranscriptContent resp) ++
        (processAudioNewMessages resp now ++ processAudioNewMessages resp now) ∧
    List.Forall₂ (placeholderRel (audioTranscriptContent resp)) msgs
      (replaceLastPlaceholder msgs (audioTranscriptContent resp)) ∧
    (processTextEffect r now cst).messages =
      (if r.response ≠ "" then
        cst.messages ++
          [{ role := Role.assistant, content := r.response, timestamp := now }]
      else cst.messages) ∧
    (handleSend cst input loading now).1.messages =
      (if jsTrim input = "" ∨ loading = true then cst.messages
       else cst.messages ++
         [{ role := Role.user, content := jsTrim input, timestamp := now }]) := by
  refine ⟨?_, replaceLastPlaceholder_forall₂ msgs (audioTranscriptContent resp),
    rfl, ?_⟩
  · rw [processAudioEffect, processAudioEffectFirst]
    by_cases h : jsTruthy resp.response = true
    · rw [if_pos h, processAudioNewMessages, if_pos h, List.append_assoc]
    · rw [if_neg h, processAudioNewMessages, if_neg h, List.append_nil,
        List.append_nil, List.append_nil]
  · by_cases hg : jsTrim input = "" ∨ loading = true
    · rw [handleSend, if_pos hg, if_pos hg]
    · rw [handleSend, if_neg hg, if_neg hg]

/-- The singleton message list holding only the optimistic voice
placeholder. -/
def cMsgs0 : List Message :=
  [{ role := Role.user, content := voicePlaceholder, timestamp := 0 }]

/-- An audio response carrying only a transcript. -/
def cAudioResp0 : ProcessAudioResponse :=
  { transcript := some "hello", audio := none, language := none,
    response := none }

/-- Claim C6, counterexample to the unamended statement: applying the
audio-response effect to the placeholder list rewrites the already
appended message's content (placeholder → "hello"), so the result does
not extend the original list. -/
theorem c6_counterexample :
    ¬ ∃ tail, processAudioEffect cAudioResp0 0 cMsgs0 = cMsgs0 ++ tail := by
  rintro ⟨tail, h⟩
  have hv : processAudioEffect cAudioResp0 0 cMsgs0 =
      [{ role := Role.user, content := "hello", timestamp := 0 }] := by
    decide
  rw [hv, cMsgs0] at h
  simp only [List.cons_append, List.nil_append, List.cons.injEq,
    Message.mk.injEq] at h
  exact absurd h.1.2.1 (by decide)

/-- Number of assistant messages in a list. -/
def assistantCount (msgs : List Message) : Nat :=
  msgs.countP (fun m => decide (m.role = Role.assistant))

/-- A fully successful audio chat response. -/
def cAudioRespOk : ProcessAudioResponse :=
  { transcript := some "hello", audio := none, language := none,
    response := some "hi there" }

/-- A fresh current-page chat state. -/
def currentInit : CurrentChatState :=
  { messages := [], sessionId := none, error := "", audioError := "",
    isLoading := false, isProcessingAudio := false }

/-- Claim C5 describes intended behaviour the current code violates: a
successful audio call appends the assistant reply TWICE (once inside the
`setMessages` updater, once more via the `newMessages` batch), and a
failed text call surfaces no error string (the hook catches the error
and only logs it; the page's `error`/`audioError` stay empty and no
assistant message is added). -/
theorem c5_code_bug :
    assistantCount (processAudioEffect cAudioRespOk 0 []) = 2 ∧
    processAudioEffect cAudioRespOk 0 [] =
      [{ role := Role.assistant, content := "hi there", timestamp := 0 },
       { role := Role.assistant, content := "hi there", timestamp := 0 }] ∧
    (currentTextRound currentInit "hi" false 0 none).1.error = "" ∧
    (currentTextRound currentInit "hi" false 0 none).1.audioError = "" ∧
    assistantCount (currentTextRound currentInit "hi" false 0 none).1.messages
      = 0 := by
  refine ⟨?_, ?_, ?_, ?_, ?_⟩ <;> decide
